import Mathlib

/-
  Verification of the tournament stream-deck controller against its
  specification.  The definitions below are a shallow embedding of the
  Python sources `api_client.py` (reconciliation store: data model,
  `_parse_matches`, `refresh_state`, `update_from_websocket_matches`)
  and `controller.py` (poll loop tick, key-press activity tracking,
  declare-winner action).  Dict values fetched with `.get` are modelled
  as `Option` fields; Python truthiness of optional strings and ints is
  modelled explicitly; wall-clock time is an explicit parameter.
-/

namespace Tcc

/-- Python truthiness for an optional string: `None` and `""` are falsy. -/
def strTruthy : Option String → Bool
  | none => false
  | some s => !(s == "")

/-- Python truthiness for an optional integer: `None` and `0` are falsy. -/
def intTruthy : Option Int → Bool
  | none => false
  | some n => !(n == 0)

/-- Model of Python `str.lower` (ASCII letters suffice for the state strings). -/
def pyLower (s : String) : String := String.mk (s.data.map Char.toLower)

/-- Whitespace characters removed by Python `str.strip`. -/
def isPySpace (c : Char) : Bool :=
  c == ' ' || c == '\t' || c == '\n' || c == '\r' || c == '\x0b' || c == '\x0c'

/-- Model of Python `str.strip()`. -/
def pyStrip (s : String) : String :=
  String.mk (((s.data.dropWhile isPySpace).reverse.dropWhile isPySpace).reverse)

/-- Helper for splitting a character list on a dash, keeping empty segments,
as Python `str.split("-")` does. -/
def splitDashAux : List Char → List Char → List (List Char)
  | [], acc => [acc.reverse]
  | c :: cs, acc =>
    if c == '-' then acc.reverse :: splitDashAux cs []
    else splitDashAux cs (c :: acc)

/-- Model of Python `s.split("-")`: always nonempty, keeps empty segments. -/
def pySplitDash (s : String) : List String :=
  (splitDashAux s.data []).map String.mk

/-- Nonempty all-decimal-digit character list to a natural number. -/
def decDigits? (cs : List Char) : Option Nat :=
  if cs.isEmpty then none
  else if cs.all Char.isDigit then
    some (cs.foldl (fun n c => 10 * n + (c.toNat - 48)) 0)
  else none

/-- Model of Python `int(s)` on strings: strip whitespace, optional sign,
decimal digits; `none` models the `ValueError` raised otherwise. -/
def pyInt? (s : String) : Option Int :=
  match (pyStrip s).data with
  | '+' :: rest => (decDigits? rest).map Int.ofNat
  | '-' :: rest => (decDigits? rest).map (fun n => -(n : Int))
  | t => (decDigits? t).map Int.ofNat

/-- `api_client.MatchState`. -/
inductive MatchState
  | pending
  | open_
  | underway
  | complete
deriving DecidableEq

/-- `MatchState(state_str)` construction: `none` models the `ValueError`
branch for unrecognized strings. -/
def matchStateOfString (s : String) : Option MatchState :=
  if s = "pending" then some MatchState.pending
  else if s = "open" then some MatchState.open_
  else if s = "underway" then some MatchState.underway
  else if s = "complete" then some MatchState.complete
  else none

/-- `api_client.Player`. -/
structure Player where
  id : Int
  name : String
  seed : Option Int := none
deriving DecidableEq

/-- `api_client.Match`. -/
structure Match where
  id : Int
  round : Int
  round_name : String
  state : MatchState
  player1 : Option Player
  player2 : Option Player
  player1_score : Int := 0
  player2_score : Int := 0
  winner_id : Option Int := none
  station_id : Option String := none
  station_name : Option String := none
  underway_at : Option String := none
  identifier : String := ""
deriving DecidableEq

/-- `Match.is_underway`: open state with an underway timestamp present. -/
def Match.is_underway (m : Match) : Bool :=
  m.state == MatchState.open_ && m.underway_at.isSome

/-- `api_client.Station`. -/
structure Station where
  id : String
  name : String
  match_id : Option Int := none
deriving DecidableEq

/-- `api_client.TournamentState` with its Python default field values. -/
structure TournamentState where
  tournament_id : Option String := none
  tournament_name : String := ""
  game_name : String := ""
  state : String := "pending"
  «matches» : List Match := []
  stations : List Station := []
  total_matches : Int := 0
  completed_matches : Int := 0
  last_update : Int := 0
deriving DecidableEq

/-- A raw match record as delivered by the API or the push channel; each
field models one dict key read by `_parse_matches` or
`update_from_websocket_matches` (absent key = `none`). -/
structure RawMatch where
  id : Option Int := none
  round : Option Int := none
  roundName : Option String := none
  state : Option String := none
  player1Id : Option Int := none
  player2Id : Option Int := none
  scores_csv : Option String := none
  scores : Option String := none
  stationId : Option String := none
  winnerId : Option Int := none
  underwayAt : Option String := none
  identifier : Option String := none
  player1Name : Option String := none
  player1Seed : Option Int := none
  player2Name : Option String := none
  player2Seed : Option Int := none
  stationName : Option String := none
deriving DecidableEq

/-- A raw participant record as read by `refresh_state`. -/
structure RawParticipant where
  id : Option Int := none
  name : Option String := none
  displayName : Option String := none
  seed : Option Int := none
deriving DecidableEq

/-- A raw station record as read by `refresh_state` and `_parse_stations`. -/
structure RawStation where
  id : Option String := none
  name : Option String := none
  matchId : Option Int := none
deriving DecidableEq

/-- Value stored in the participant lookup map: every construction site in
the source stores both keys, so the fields are total. -/
structure PInfo where
  name : String
  seed : Option Int := none
deriving DecidableEq

/-- Participant map: Python dict as an association list in which the most
recent insertion is at the head (insertion = prepend, lookup = first hit,
so later insertions shadow earlier ones exactly as dict assignment does). -/
abbrev PMap := List (Int × PInfo)

/-- Station map, same dict representation; the stored value models
`s.get("name")`, which may be `None`. -/
abbrev SMap := List (String × Option String)

/-- Dict lookup `participant_map.get(k, {})` followed by field access. -/
def pmapGet (pm : PMap) (k : Int) : Option PInfo :=
  (pm.find? (fun e => e.1 == k)).map (fun e => e.2)

/-- Dict lookup `station_map.get(k)` (a stored `None` value and an absent
key are observationally identical through `.get`). -/
def smapGet (sm : SMap) (k : String) : Option String :=
  (sm.find? (fun e => e.1 == k)).bind (fun e => e.2)

/-- State parsing in `_parse_matches`: lower-case the string (defaulting
an absent field to "pending"), fall back to `PENDING` on `ValueError`. -/
def parseState (s : Option String) : MatchState :=
  match matchStateOfString (pyLower (s.getD "pending")) with
  | some st => st
  | none => MatchState.pending

/-- Player-slot parsing in `_parse_matches`: a falsy id (absent or 0)
yields no player; otherwise the name and seed come from the participant
map, with "TBD" as the fallback name. -/
def parsePlayer (pm : PMap) (pid? : Option Int) : Option Player :=
  if intTruthy pid? then
    let pid := pid?.getD 0
    let info := pmapGet pm pid
    some { id := pid
           name := (info.map (fun i => i.name)).getD "TBD"
           seed := info.bind (fun i => i.seed) }
  else none

/-- Score-segment rule of `_parse_matches`: segment `i` contributes
`int(seg)` when it exists and strips to nonempty, else 0; `none` models
the `ValueError` of `int` on a non-numeric nonblank segment. -/
def scoreOfSeg (segs : List String) (i : Nat) : Option Int :=
  match segs[i]? with
  | some seg => if pyStrip seg ≠ "" then pyInt? seg else some 0
  | none => some 0

/-- The combined scores string selected by `_parse_matches`:
`m.get("scores_csv") or m.get("scores") or ""` with Python truthiness. -/
def scoresStrOf (m : RawMatch) : String :=
  if strTruthy m.scores_csv then m.scores_csv.getD ""
  else if strTruthy m.scores then m.scores.getD ""
  else ""

/-- Per-record body of the `_parse_matches` loop; `none` models a raised
exception (the only raise point in the typed model is `int` on a score
segment), which the loop catches and turns into a skip. -/
def parseMatchRecord (pm : PMap) (sm : SMap) (m : RawMatch) : Option Match :=
  let state := parseState m.state
  let player1 := parsePlayer pm m.player1Id
  let player2 := parsePlayer pm m.player2Id
  let segs := pySplitDash (scoresStrOf m)
  (scoreOfSeg segs 0).bind fun p1s =>
  (scoreOfSeg segs 1).map fun p2s =>
    { id := m.id.getD 0
      round := m.round.getD 0
      round_name := m.roundName.getD ("Round " ++ toString (m.round.getD 0))
      state := state
      player1 := player1
      player2 := player2
      player1_score := p1s
      player2_score := p2s
      winner_id := m.winnerId
      station_id := m.stationId
      station_name :=
        if strTruthy m.stationId then smapGet sm (m.stationId.getD "") else none
      underway_at := m.underwayAt
      identifier :=
        m.identifier.getD (match m.id with | some n => toString n | none => "") }

/-- The `state_priority` dict of `sort_key` in `_parse_matches`; all four
enum members are keys, so the `.get` default 4 is unreachable. -/
def statePriority : MatchState → Nat
  | MatchState.underway => 0
  | MatchState.open_ => 1
  | MatchState.pending => 2
  | MatchState.complete => 3

/-- `sort_key` of `_parse_matches`: priority 0 for a match whose underway
indicator is set, else the state priority; round is the tie-breaker. -/
def sortKey (m : Match) : Nat × Int :=
  if m.is_underway then (0, m.round) else (statePriority m.state, m.round)

/-- Lexicographic comparison of sort keys, the order realized by the
Python tuple comparison inside `list.sort`. -/
@[reducible] def matchLe (a b : Match) : Prop :=
  (sortKey a).1 < (sortKey b).1 ∨
    ((sortKey a).1 = (sortKey b).1 ∧ (sortKey a).2 ≤ (sortKey b).2)

instance : DecidableRel matchLe := fun a b =>
  inferInstanceAs (Decidable (_ ∨ _))

instance : IsTotal Match matchLe := by
  constructor
  intro a b
  unfold matchLe
  omega

instance : IsTrans Match matchLe := by
  constructor
  intro a b c hab hbc
  unfold matchLe at hab hbc ⊢
  omega

/-- `_parse_matches`: keep the successfully parsed records in order, then
stable-sort by `sort_key` (Python `list.sort` is a stable sort; a stable
structural insertion sort realizes the same list). -/
def parseMatches (raw : List RawMatch) (pm : PMap) (sm : SMap) : List Match :=
  List.insertionSort matchLe (raw.filterMap (parseMatchRecord pm sm))

/-- Per-record body of `_parse_stations` (total in the typed model). -/
def parseStation (s : RawStation) : Station :=
  { id := s.id.getD "", name := s.name.getD "", match_id := s.matchId }

/-- `_parse_stations`. -/
def parseStations (raw : List RawStation) : List Station :=
  raw.map parseStation

/-- Participant map built by `refresh_state`: name is
`p.get("name") or p.get("displayName") or "TBD"` with Python truthiness.
Records with no id insert under the `None` key, which no integer lookup
can reach, so they are dropped here. -/
def buildParticipantMap (ps : List RawParticipant) : PMap :=
  ps.foldl
    (fun acc p =>
      match p.id with
      | some pid =>
        (pid,
          { name :=
              if strTruthy p.name then p.name.getD ""
              else if strTruthy p.displayName then p.displayName.getD ""
              else "TBD"
            seed := p.seed }) :: acc
      | none => acc)
    []

/-- Station map built by `refresh_state` (value is `s.get("name")`,
possibly absent). -/
def buildStationMap (ss : List RawStation) : SMap :=
  ss.foldl
    (fun acc s =>
      match s.id with
      | some sid => (sid, s.name) :: acc
      | none => acc)
    []

/-- Full-refresh payload: `tournamentId` extracted from the status call,
and one `Option` per follow-up request (`none` = request failed or its
success flag was false, leaving the corresponding fields untouched). -/
structure RefreshPayload where
  tournamentId : Option String := none
  participants : Option (List RawParticipant) := none
  stations : Option (List RawStation) := none
  «matches» : Option (List RawMatch) := none
  stats : Option (Option Int × Option Int) := none
deriving DecidableEq

/-- `refresh_state` after a successful status call, with the wall-clock
reading `time.time()` passed in as `now`.  A falsy tournament id resets
the snapshot to a fresh default (the early return happens before
`last_update` is touched). -/
def refresh_state (p : RefreshPayload) (now : Int) (s : TournamentState) :
    TournamentState :=
  if strTruthy p.tournamentId then
    let s1 : TournamentState := { s with tournament_id := p.tournamentId }
    let pm : PMap :=
      match p.participants with
      | some ps => buildParticipantMap ps
      | none => []
    let sm : SMap :=
      match p.stations with
      | some ss => buildStationMap ss
      | none => []
    let s2 : TournamentState :=
      match p.stations with
      | some ss => { s1 with stations := parseStations ss }
      | none => s1
    let s3 : TournamentState :=
      match p.«matches» with
      | some ms => { s2 with «matches» := parseMatches ms pm sm }
      | none => s2
    let s4 : TournamentState :=
      match p.stats with
      | some st =>
        { s3 with total_matches := st.1.getD 0, completed_matches := st.2.getD 0 }
      | none => s3
    { s4 with last_update := now }
  else {}

/-- Payload of the push event `matches:update`: a raw match array and an
optional stats object (with optional keys, defaulting to the current
counters). -/
structure WsMatchesPayload where
  «matches» : List RawMatch := []
  stats : Option (Option Int × Option Int) := none
deriving DecidableEq

/-- Loop body of the inline participant-map extraction in
`update_from_websocket_matches`: an inline name is consulted only when
truthy, and inserted only under a truthy player id. -/
def wsInlinePStep (acc : PMap) (m : RawMatch) : PMap :=
  let acc1 :=
    if strTruthy m.player1Name && intTruthy m.player1Id then
      (m.player1Id.getD 0,
        { name := m.player1Name.getD "TBD", seed := m.player1Seed }) :: acc
    else acc
  if strTruthy m.player2Name && intTruthy m.player2Id then
    (m.player2Id.getD 0,
      { name := m.player2Name.getD "TBD", seed := m.player2Seed }) :: acc1
  else acc1

/-- Inline participant map built by `update_from_websocket_matches` from
names carried in the push payload itself. -/
def wsInlineParticipantMap (ms : List RawMatch) : PMap :=
  ms.foldl wsInlinePStep []

/-- Inline station map built by `update_from_websocket_matches` from
station names carried in the push payload. -/
def wsInlineStationMap (ms : List RawMatch) : SMap :=
  ms.foldl
    (fun acc m =>
      if strTruthy m.stationName && strTruthy m.stationId then
        (m.stationId.getD "", some (m.stationName.getD "")) :: acc
      else acc)
    []

/-- Cached participant map rebuilt from the current snapshot when the
push payload carries no inline names. -/
def cachedParticipantMap (ms : List Match) : PMap :=
  ms.foldl
    (fun acc m =>
      let acc1 :=
        match m.player1 with
        | some p => (p.id, { name := p.name, seed := p.seed }) :: acc
        | none => acc
      match m.player2 with
      | some p => (p.id, { name := p.name, seed := p.seed }) :: acc1
      | none => acc1)
    []

/-- Cached station map rebuilt from the current snapshot when the push
payload carries no inline station names. -/
def cachedStationMap (ss : List Station) : SMap :=
  ss.foldl (fun acc st => (st.id, some st.name) :: acc) []

/-- The participant map actually passed to `_parse_matches` by
`update_from_websocket_matches`: the inline map when it is nonempty,
else the map cached from the current snapshot. -/
def wsParticipantMapUsed (d : WsMatchesPayload) (s : TournamentState) : PMap :=
  let pm0 := wsInlineParticipantMap d.«matches»
  if pm0.isEmpty then cachedParticipantMap s.«matches» else pm0

/-- The station map actually passed to `_parse_matches` by
`update_from_websocket_matches`. -/
def wsStationMapUsed (d : WsMatchesPayload) (s : TournamentState) : SMap :=
  let sm0 := wsInlineStationMap d.«matches»
  if sm0.isEmpty then cachedStationMap s.stations else sm0

/-- `update_from_websocket_matches`: returns the success flag together
with the resulting snapshot.  An empty match array is rejected without
touching the snapshot; otherwise the whole match list is re-parsed and
replaced, stats are patched when present, and `last_update` is set. -/
def update_from_websocket_matches (d : WsMatchesPayload) (now : Int)
    (s : TournamentState) : Bool × TournamentState :=
  if d.«matches».isEmpty then (false, s)
  else
    let s1 : TournamentState :=
      { s with «matches» :=
          parseMatches d.«matches» (wsParticipantMapUsed d s) (wsStationMapUsed d s) }
    let s2 : TournamentState :=
      match d.stats with
      | some st =>
        { s1 with total_matches := st.1.getD s.total_matches,
                  completed_matches := st.2.getD s.completed_matches }
      | none => s1
    (true, { s2 with last_update := now })

/-- `controller.ViewMode`. -/
inductive ViewMode
  | main
  | match_control
  | score_entry
  | ticker
  | confirm
deriving DecidableEq

/-- The controller fields touched by the declare-winner action. -/
structure ControllerState where
  current_mode : ViewMode := ViewMode.main
  selected_match : Option Match := none
  pending_scores : Int × Int := (0, 0)
deriving DecidableEq

/-- Remote calls dispatched by the embedded controller actions. -/
inductive ApiCall
  | declareWinner (match_id winner_id p1 p2 : Int)
deriving DecidableEq

/-- `controller._action_declare_winner`: the returned list holds the
remote calls dispatched by the action (via `_run_api_action`), in order.
A tie of the pending scores returns before any mutation or dispatch; a
falsy winner id likewise leaves everything untouched. -/
def _action_declare_winner (c : ControllerState) : ControllerState × List ApiCall :=
  match c.selected_match with
  | none => (c, [])
  | some sel =>
    let p1 := c.pending_scores.1
    let p2 := c.pending_scores.2
    if p1 = p2 then (c, [])
    else
      let winner_id := if p1 > p2 then sel.player1.map (fun p => p.id)
                       else sel.player2.map (fun p => p.id)
      if intTruthy winner_id then
        ({ c with selected_match := none, current_mode := ViewMode.main },
          [ApiCall.declareWinner sel.id (winner_id.getD 0) p1 p2])
      else (c, [])

/-- `controller._poll_interval_active` (2.0 seconds). -/
def POLL_INTERVAL_ACTIVE : Int := 2

/-- `controller._poll_interval_idle` (10.0 seconds). -/
def POLL_INTERVAL_IDLE : Int := 10

/-- `controller._active_timeout` (30.0 seconds). -/
def ACTIVE_TIMEOUT : Int := 30

/-- Staleness window of the WebSocket liveness check (60 seconds). -/
def WS_STALENESS_WINDOW : Int := 60

/-- The controller fields consulted by one iteration of `_poll_loop`,
plus the key-press activity tracking.  `ws_connected` is the flag kept in
sync with the push-channel status by `_on_ws_connection_change`;
`has_websocket` and `websocket_is_connected` model
`self._websocket and self._websocket.is_connected()`. -/
structure PollState where
  ws_connected : Bool := false
  has_websocket : Bool := false
  websocket_is_connected : Bool := false
  ws_last_event : Int := 0
  last_user_action : Int := 0
  api_poll_interval : Int := POLL_INTERVAL_IDLE
  last_api_poll : Int := 0
  poll_fallback_interval : Int := 5
deriving DecidableEq

/-- Observable effects of one `_poll_loop` iteration. -/
inductive PollAction
  | requestMatches
  | httpPull
deriving DecidableEq

/-- The pressed branch of `controller.on_key_press`: records user
activity and switches the adaptive interval to the active cadence. -/
def on_key_press_down (c : PollState) (now : Int) : PollState :=
  { c with last_user_action := now, api_poll_interval := POLL_INTERVAL_ACTIVE }

/-- One iteration of `controller._poll_loop` at wall-clock `now`:
when the push flag is set, only the staleness check runs (a push-side
`matches:request`, never an HTTP pull); otherwise the idle switch is
applied to the adaptive interval and an HTTP pull fires when `now` is at
least `poll_fallback_interval` past the last pull. -/
def _poll_tick (c : PollState) (now : Int) : PollState × List PollAction :=
  if c.ws_connected then
    if now - c.ws_last_event > WS_STALENESS_WINDOW then
      if c.has_websocket && c.websocket_is_connected then (c, [PollAction.requestMatches])
      else (c, [])
    else (c, [])
  else
    let c1 :=
      if now - c.last_user_action > ACTIVE_TIMEOUT then
        if c.api_poll_interval ≠ POLL_INTERVAL_IDLE then
          { c with api_poll_interval := POLL_INTERVAL_IDLE }
        else c
      else c
    if now - c1.last_api_poll ≥ c1.poll_fallback_interval then
      ({ c1 with last_api_poll := now }, [PollAction.httpPull])
    else (c1, [])

/-! ### Helper lemmas about the parser -/

/-- A successfully parsed record carries the state computed by
`parseState` from its raw state field. -/
theorem parseMatchRecord_state (pm : PMap) (sm : SMap) (r : RawMatch) (m' : Match)
    (h : parseMatchRecord pm sm r = some m') : m'.state = parseState r.state := by
  simp only [parseMatchRecord, Option.bind_eq_some, Option.map_eq_some'] at h
  obtain ⟨p1s, _, p2s, _, hm⟩ := h
  subst hm
  rfl

/-- A successfully parsed record carries the player computed by
`parsePlayer` from its raw first player id. -/
theorem parseMatchRecord_player1 (pm : PMap) (sm : SMap) (r : RawMatch) (m' : Match)
    (h : parseMatchRecord pm sm r = some m') : m'.player1 = parsePlayer pm r.player1Id := by
  simp only [parseMatchRecord, Option.bind_eq_some, Option.map_eq_some'] at h
  obtain ⟨p1s, _, p2s, _, hm⟩ := h
  subst hm
  rfl

/-- A record that parses successfully appears in the parsed batch,
wherever it sits in the raw list. -/
theorem mem_parseMatches_of_parse (pm : PMap) (sm : SMap) {xs ys : List RawMatch}
    {r : RawMatch} {m' : Match} (h : parseMatchRecord pm sm r = some m') :
    m' ∈ parseMatches (xs ++ r :: ys) pm sm := by
  unfold parseMatches
  rw [(List.perm_insertionSort matchLe _).mem_iff]
  exact List.mem_filterMap.mpr ⟨r, by simp, h⟩

/-! ### C1: ordering of the stored match list -/

/-- Sort key transcribed from the words of the claim: rank 0 exactly for
matches whose underway indicator is set, else open 1, pending 2,
complete 3, anything else (the underway state without the indicator) 4. -/
def claimSortKey (m : Match) : Nat × Int :=
  if m.is_underway then (0, m.round)
  else
    match m.state with
    | MatchState.open_ => (1, m.round)
    | MatchState.pending => (2, m.round)
    | MatchState.complete => (3, m.round)
    | MatchState.underway => (4, m.round)

/-- Lexicographic order on the claim-side sort key. -/
@[reducible] def claimLe (a b : Match) : Prop :=
  (claimSortKey a).1 < (claimSortKey b).1 ∨
    ((claimSortKey a).1 = (claimSortKey b).1 ∧ (claimSortKey a).2 ≤ (claimSortKey b).2)

instance : DecidableRel claimLe := fun _ _ =>
  inferInstanceAs (Decidable (_ ∨ _))

/-- C1, counterexample: a raw batch holding a match in raw state
"underway" (priority 0 in the code via the `state_priority` dict, but
"anything else", hence 4, per the claim, since its underway indicator is
not set) followed by an open match of a lower round.  The stored list
keeps the underway-state match first, which violates the ordering the
claim describes. -/
theorem c1_counterexample :
    ¬ List.Pairwise claimLe
        (parseMatches
          [{ state := some "underway", round := some 5, id := some 1 },
           { state := some "open", round := some 1, id := some 2 }] [] []) := by
  intro hp
  have h01 := List.pairwise_iff_getElem.mp hp 0 1 (by decide) (by decide) (by decide)
  revert h01
  decide

/-- C1 (amended): after a full parse, the stored match list is sorted by
the two-part key actually computed by `sort_key`: primary key 0 for
matches whose underway indicator is set or whose parsed state is
underway, else open 1, pending 2, complete 3; secondary key round
ascending. -/
theorem c1_matches_sorted (raw : List RawMatch) (pm : PMap) (sm : SMap) :
    List.Pairwise
      (fun a b : Match =>
        (sortKey a).1 < (sortKey b).1 ∨
          ((sortKey a).1 = (sortKey b).1 ∧ (sortKey a).2 ≤ (sortKey b).2))
      (parseMatches raw pm sm) :=
  List.sorted_insertionSort matchLe (raw.filterMap (parseMatchRecord pm sm))

/-! ### C5: score parsing -/

/-- C5, counterexample: a record whose scores string has a non-numeric,
nonblank first segment is not parsed with a defaulted score of 0 — the
`int` conversion raises and the record is skipped from the batch. -/
theorem c5_counterexample :
    parseMatchRecord [] [] { scores_csv := some "x-1", id := some 7 } = none ∧
    parseMatches [{ scores_csv := some "x-1", id := some 7 }] [] [] = [] := by
  constructor
  · decide
  · decide

/-- C5 (amended): first, a record whose scores fields are absent or
empty parses successfully with both scores 0; second, a missing segment,
or a segment that strips to the empty string, contributes the default
score 0; third, whenever both segment values are defined (each segment
missing, blank or numeric), the record is still parsed and its two
scores are exactly those segment values — so a blank or missing segment
never prevents the parse, it only defaults that player's score to 0. -/
theorem c5_scores (r : RawMatch) (pm : PMap) (sm : SMap) :
    (strTruthy r.scores_csv = false → strTruthy r.scores = false →
      ∃ m', parseMatchRecord pm sm r = some m' ∧
        m'.player1_score = 0 ∧ m'.player2_score = 0) ∧
    (∀ (segs : List String) (i : Nat),
      (segs[i]? = none → scoreOfSeg segs i = some 0) ∧
      ∀ s, segs[i]? = some s → pyStrip s = "" → scoreOfSeg segs i = some 0) ∧
    (∀ p1 p2,
      scoreOfSeg (pySplitDash (scoresStrOf r)) 0 = some p1 →
      scoreOfSeg (pySplitDash (scoresStrOf r)) 1 = some p2 →
      ∃ m', parseMatchRecord pm sm r = some m' ∧
        m'.player1_score = p1 ∧ m'.player2_score = p2) := by
  refine ⟨?_, ?_, ?_⟩
  · intro h1 h2
    unfold parseMatchRecord scoresStrOf
    rw [h1, h2]
    exact ⟨_, rfl, rfl, rfl⟩
  · intro segs i
    constructor
    · intro h
      simp [scoreOfSeg, h]
    · intro s hs hblank
      simp [scoreOfSeg, hs, hblank]
  · intro p1 p2 h1 h2
    simp only [parseMatchRecord] at h1 h2 ⊢
    rw [h1, h2]
    exact ⟨_, rfl, rfl, rfl⟩

/-- Witness for C5: the all-absent record parses to scores 0-0, and for
the record with scores string "2-" the blank second segment defaults to
0 while the record still parses, with scores 2-0. -/
theorem c5_scores_witness :
    (∃ m', parseMatchRecord [] [] ({} : RawMatch) = some m' ∧
      m'.player1_score = 0 ∧ m'.player2_score = 0) ∧
    scoreOfSeg (pySplitDash "2-") 1 = some 0 ∧
    (∃ m', parseMatchRecord [] [] { scores_csv := some "2-" } = some m' ∧
      m'.player1_score = 2 ∧ m'.player2_score = 0) :=
  ⟨(c5_scores {} [] []).1 rfl rfl,
   ((c5_scores { scores_csv := some "2-" } [] []).2.1 (pySplitDash "2-") 1).2 ""
     (by decide) rfl,
   (c5_scores { scores_csv := some "2-" } [] []).2.2 2 0 (by decide) (by decide)⟩

/-! ### C6: unrecognized state strings -/

/-- C6, counterexample: an unrecognized state string does not guarantee
that the record lands in the match list — a record with state "foo" and
a malformed scores string is skipped entirely. -/
theorem c6_counterexample :
    parseMatchRecord [] [] { state := some "foo", scores_csv := some "x-1" } = none ∧
    parseMatches [{ state := some "foo", scores_csv := some "x-1" }] [] [] = [] := by
  constructor
  · decide
  · decide

/-- C6 (amended): an unrecognized state string maps to pending and the
state conversion itself never fails; whenever such a record parses (its
score segments being blank or numeric), it is included in the resulting
match list with state pending. -/
theorem c6_unknown_state (pm : PMap) (sm : SMap) (r : RawMatch)
    (h : matchStateOfString (pyLower (r.state.getD "pending")) = none) :
    parseState r.state = MatchState.pending ∧
    (∀ m', parseMatchRecord pm sm r = some m' → m'.state = MatchState.pending) ∧
    (∀ xs ys m', parseMatchRecord pm sm r = some m' →
       m' ∈ parseMatches (xs ++ r :: ys) pm sm) := by
  have hps : parseState r.state = MatchState.pending := by
    unfold parseState
    rw [h]
  refine ⟨hps, ?_, ?_⟩
  · intro m' hm
    rw [parseMatchRecord_state pm sm r m' hm, hps]
  · intro xs ys m' hm
    exact mem_parseMatches_of_parse pm sm hm

/-- Witness for C6 at the state string "foo". -/
theorem c6_unknown_state_witness :
    parseState (some "foo") = MatchState.pending :=
  (c6_unknown_state [] [] { state := some "foo" } (by decide)).1

/-! ### C7: per-record failure isolation -/

/-- C7: the parsed batch is, up to the sort, exactly the list of
successful per-record parses, and removing a malformed record (one whose
parse fails) leaves the result of the batch unchanged — the surrounding
records are all still parsed, and the function is total. -/
theorem c7_partial_failure (pm : PMap) (sm : SMap) :
    (∀ raw, (parseMatches raw pm sm).Perm
        (raw.filterMap (parseMatchRecord pm sm))) ∧
    (∀ xs ys bad, parseMatchRecord pm sm bad = none →
       parseMatches (xs ++ bad :: ys) pm sm = parseMatches (xs ++ ys) pm sm) := by
  constructor
  · intro raw
    exact List.perm_insertionSort matchLe _
  · intro xs ys bad h
    unfold parseMatches
    rw [List.filterMap_append, List.filterMap_cons, h, List.filterMap_append]

/-- Witness for C7: a batch of one well-formed and one malformed record
parses to the same list as the batch without the malformed record. -/
theorem c7_partial_failure_witness :
    parseMatches [{ id := some 3 }, { scores_csv := some "x-1" }] [] [] =
      parseMatches [{ id := some 3 }] [] [] :=
  (c7_partial_failure [] []).2 [{ id := some 3 }] [] { scores_csv := some "x-1" }
    (by decide)

/-! ### C4: cached participant names under incremental pushes -/

/-- A record without truthy inline names contributes nothing to the
inline participant map. -/
theorem wsInlinePStep_skip {acc : PMap} {m : RawMatch}
    (h1 : strTruthy m.player1Name = false) (h2 : strTruthy m.player2Name = false) :
    wsInlinePStep acc m = acc := by
  unfold wsInlinePStep
  rw [h1, h2]
  rfl

/-- Folding the inline extraction over a payload with no truthy inline
names leaves the accumulator unchanged. -/
theorem wsInlineFoldl_const (ms : List RawMatch) :
    (∀ m ∈ ms, strTruthy m.player1Name = false ∧ strTruthy m.player2Name = false) →
    ∀ acc : PMap, ms.foldl wsInlinePStep acc = acc := by
  induction ms with
  | nil =>
    intro _ acc
    rfl
  | cons m tl ih =>
    intro h acc
    rw [List.foldl_cons,
      wsInlinePStep_skip (h m (List.mem_cons_self m tl)).1 (h m (List.mem_cons_self m tl)).2]
    exact ih (fun x hx => h x (List.mem_cons_of_mem m hx)) acc

/-- Prior snapshot for the C4 scenarios: player id 2 is cached under the
name "Bob". -/
def c4PriorState : TournamentState :=
  { «matches» :=
      [{ id := 9, round := 1, round_name := "R", state := MatchState.open_,
         player1 := some { id := 2, name := "Bob" }, player2 := none }] }

/-- Push payload in which one match carries an inline name and the other
match (player id 2) carries none. -/
def c4PushInline : WsMatchesPayload :=
  { «matches» :=
      [{ id := some 10, player1Id := some 1, player1Name := some "Alice" },
       { id := some 20, player1Id := some 2 }] }

/-- C4, counterexample: the push payload `c4PushInline` contains a match
(id 20) with no inline participant names while the prior snapshot caches
"Bob" for its player id 2; because another match of the same payload
carries an inline name, the cached fallback is not consulted and the
resulting snapshot shows "TBD" for that player instead of "Bob". -/
theorem c4_counterexample :
    ((update_from_websocket_matches c4PushInline 99 c4PriorState).2.«matches»).map
        (fun m => (m.id, m.player1.map (fun p => p.name))) =
      [(10, some "Alice"), (20, some "TBD")] := by
  decide

/-- C4 (amended): when no match of the push payload carries a truthy
inline participant name, the parser falls back to the participant map
cached from the prior snapshot, so every pushed match that parses keeps
the cached name for its first player id — it is never degraded to the
"TBD" placeholder. -/
theorem c4_cached_name (d : WsMatchesPayload) (s : TournamentState) (now : Int)
    (r : RawMatch) (pid : Int) (info : PInfo) (m' : Match)
    (hNoInline : ∀ m ∈ d.«matches»,
      strTruthy m.player1Name = false ∧ strTruthy m.player2Name = false)
    (hr : r ∈ d.«matches»)
    (hpid : r.player1Id = some pid) (hpid0 : ¬ pid = 0)
    (hcache : pmapGet (cachedParticipantMap s.«matches») pid = some info)
    (hparse : parseMatchRecord (wsParticipantMapUsed d s) (wsStationMapUsed d s) r
        = some m') :
    m'.player1 = some { id := pid, name := info.name, seed := info.seed } ∧
    m' ∈ (update_from_websocket_matches d now s).2.«matches» := by
  have hpm : wsParticipantMapUsed d s = cachedParticipantMap s.«matches» := by
    unfold wsParticipantMapUsed wsInlineParticipantMap
    rw [wsInlineFoldl_const d.«matches» hNoInline []]
    rfl
  have hbn : (pid == 0) = false := beq_eq_false_iff_ne.mpr hpid0
  have hpl : parsePlayer (cachedParticipantMap s.«matches») (some pid) =
      some { id := pid, name := info.name, seed := info.seed } := by
    simp [parsePlayer, intTruthy, hbn, hcache]
  have h1 := parseMatchRecord_player1 _ _ _ _ hparse
  rw [hpm, hpid, hpl] at h1
  refine ⟨h1, ?_⟩
  have hne : d.«matches».isEmpty = false := by
    cases hd : d.«matches» with
    | nil =>
      rw [hd] at hr
      exact absurd hr (List.not_mem_nil r)
    | cons a tl => rfl
  obtain ⟨xs, ys, hsplit⟩ := List.append_of_mem hr
  cases hst : d.stats <;>
    simp only [update_from_websocket_matches, hne, hst, Bool.false_eq_true,
      if_false] <;>
  · rw [hsplit]
    exact mem_parseMatches_of_parse _ _ hparse

/-- Push payload with a single match and no inline names. -/
def c4PushNoInline : WsMatchesPayload :=
  { «matches» := [{ id := some 20, player1Id := some 2 }] }

/-- Parse of the single pushed match of `c4PushNoInline` against the
cached maps of `c4PriorState`. -/
def c4Parsed : Match :=
  { id := 20, round := 0, round_name := "Round 0", state := MatchState.pending,
    player1 := some { id := 2, name := "Bob" }, player2 := none,
    identifier := "20" }

/-- Witness for C4: a one-match push without inline names keeps the
cached name "Bob". -/
theorem c4_cached_name_witness :
    c4Parsed.player1 = some { id := 2, name := "Bob", seed := none } ∧
    c4Parsed ∈ (update_from_websocket_matches c4PushNoInline 99 c4PriorState).2.«matches» :=
  c4_cached_name c4PushNoInline c4PriorState 99 { id := some 20, player1Id := some 2 }
    2 { name := "Bob", seed := none } c4Parsed
    (by decide) (by decide) rfl (by decide) (by decide) (by decide)

/-! ### C8: declare-winner on a tie -/

/-- C8: with equal pending scores, the declare-winner action returns the
controller state unchanged (no snapshot or selection mutation) and
dispatches no remote call; the early return happens before the call
site, and no error can escape (the function is total). -/
theorem c8_tie_noop (c : ControllerState)
    (h : c.pending_scores.1 = c.pending_scores.2) :
    _action_declare_winner c = (c, []) := by
  unfold _action_declare_winner
  cases hm : c.selected_match with
  | none => rfl
  | some sel => simp [h]

/-- A selected match for the C8 witness. -/
def c8Match : Match :=
  { id := 1, round := 1, round_name := "R1", state := MatchState.open_,
    player1 := some { id := 5, name := "A" }, player2 := some { id := 6, name := "B" } }

/-- Controller state with a selection and tied pending scores 2-2. -/
def c8State : ControllerState :=
  { current_mode := ViewMode.score_entry, selected_match := some c8Match,
    pending_scores := (2, 2) }

/-- Witness for C8 at pending scores 2-2. -/
theorem c8_tie_noop_witness : _action_declare_winner c8State = (c8State, []) :=
  c8_tie_noop c8State rfl

/-! ### C9: idempotence of the full refresh -/

/-- Payload with an active tournament for the C9 scenarios. -/
def c9Payload : RefreshPayload := { tournamentId := some "t" }

/-- C9, counterexample: the snapshot after a second apply of the same
payload at a later wall-clock reading differs from the snapshot after
the first apply in its `last_update` field, which records the apply
time. -/
theorem c9_counterexample :
    (refresh_state c9Payload 1 (refresh_state c9Payload 0 {})).last_update = 1 ∧
    (refresh_state c9Payload 0 {}).last_update = 0 := by
  constructor
  · rfl
  · rfl

/-- C9 (amended): applying the same full-refresh payload twice yields
the same snapshot as applying it once at the time of the second apply;
equivalently, every field after the second apply equals its value after
the first except `last_update`, which is set to the second apply time. -/
theorem c9_idem (p : RefreshPayload) (s : TournamentState) (t1 t2 : Int) :
    refresh_state p t2 (refresh_state p t1 s) = refresh_state p t2 s ∧
    (strTruthy p.tournamentId = true →
      refresh_state p t2 (refresh_state p t1 s) =
        { refresh_state p t1 s with last_update := t2 }) := by
  obtain ⟨tid, parts, stns, ms, sts⟩ := p
  by_cases hb : strTruthy tid = true
  · constructor
    · simp only [refresh_state, hb, if_true]
      cases stns <;> cases ms <;> cases sts <;> rfl
    · intro _
      simp only [refresh_state, hb, if_true]
      cases stns <;> cases ms <;> cases sts <;> rfl
  · rw [Bool.not_eq_true] at hb
    constructor
    · simp only [refresh_state, hb, Bool.false_eq_true, if_false]
    · intro hcontra
      rw [hb] at hcontra
      exact absurd hcontra (by decide)

/-- Witness for C9 with apply times 3 and 7. -/
theorem c9_idem_witness :
    refresh_state c9Payload 7 (refresh_state c9Payload 3 {}) =
      { refresh_state c9Payload 3 {} with last_update := 7 } :=
  (c9_idem c9Payload {} 3 7).2 (by decide)

/-! ### C10: an incremental push replaces the whole match list -/

/-- C10: a nonempty push payload is applied successfully and the
resulting match list holds exactly the matches parsed from the payload
(with the maps the update selects); in particular any match of the prior
snapshot that no pushed record parses to is gone. -/
theorem c10_replacement (d : WsMatchesPayload) (s : TournamentState) (now : Int)
    (h : d.«matches» ≠ []) :
    (update_from_websocket_matches d now s).1 = true ∧
    ∀ m' : Match,
      m' ∈ (update_from_websocket_matches d now s).2.«matches» ↔
        ∃ r ∈ d.«matches»,
          parseMatchRecord (wsParticipantMapUsed d s) (wsStationMapUsed d s) r
            = some m' := by
  have hne : d.«matches».isEmpty = false := by
    cases hd : d.«matches» with
    | nil => exact absurd hd h
    | cons a tl => rfl
  constructor
  · cases hst : d.stats <;>
      simp [update_from_websocket_matches, hne, hst]
  · intro m'
    cases hst : d.stats <;>
      simp only [update_from_websocket_matches, hne, hst, Bool.false_eq_true,
        if_false] <;>
    · unfold parseMatches
      rw [(List.perm_insertionSort matchLe _).mem_iff, List.mem_filterMap]

/-- One-match push payload for the C10 witness. -/
def c10Push : WsMatchesPayload := { «matches» := [{ id := some 1 }] }

/-- Witness for C10: the one-match push is applied successfully. -/
theorem c10_replacement_witness :
    (update_from_websocket_matches c10Push 5 ({} : TournamentState)).1 = true :=
  (c10_replacement c10Push {} 5 (by decide)).1

/-! ### C3: push-driven ticks never pull; pull-driven ticks pull when due -/

/-- C3: while the push flag is set, a tick never issues an HTTP pull,
and once the staleness window is exceeded (with the client object
present and connected) it requests fresh data over the push channel;
when the flag is clear, a tick issues exactly one HTTP pull precisely
when the configured poll interval has elapsed since the last pull. -/
theorem c3_tick (c : PollState) (now : Int) :
    (c.ws_connected = true →
      PollAction.httpPull ∉ (_poll_tick c now).2 ∧
      (now - c.ws_last_event > WS_STALENESS_WINDOW →
        c.has_websocket = true → c.websocket_is_connected = true →
        (_poll_tick c now).2 = [PollAction.requestMatches])) ∧
    (c.ws_connected = false →
      ((_poll_tick c now).2 = [PollAction.httpPull] ↔
        now - c.last_api_poll ≥ c.poll_fallback_interval)) := by
  constructor
  · intro hc
    unfold _poll_tick
    rw [hc]
    constructor
    · split_ifs <;> simp_all
    · intro hstale hhas hconn
      rw [if_pos hstale, hhas, hconn]
      rfl
  · intro hc
    unfold _poll_tick
    rw [hc]
    simp only [Bool.false_eq_true, if_false]
    split_ifs with h1 h2 h2 <;> simp_all

/-- Push-connected poll state with a stale push channel. -/
def c3ConnState : PollState :=
  { ws_connected := true, has_websocket := true, websocket_is_connected := true,
    ws_last_event := 0 }

/-- Disconnected poll state whose last pull is overdue. -/
def c3PollState : PollState :=
  { ws_connected := false, last_api_poll := 0, poll_fallback_interval := 5 }

/-- Witness for C3: the stale connected tick requests matches over the
push channel, and the overdue disconnected tick issues exactly one pull. -/
theorem c3_tick_witness :
    (_poll_tick c3ConnState 100).2 = [PollAction.requestMatches] ∧
    (_poll_tick c3PollState 10).2 = [PollAction.httpPull] :=
  ⟨((c3_tick c3ConnState 100).1 rfl).2 (by decide) rfl rfl,
   ((c3_tick c3PollState 10).2 rfl).mpr (by decide)⟩

/-! ### C2: the adaptive cadence is tracked but not used by the tick -/

/-- Disconnected poll state, idle interval, last pull and last action at
time 0, configured fallback interval 5. -/
def c2State : PollState :=
  { ws_connected := false, last_user_action := 0,
    api_poll_interval := POLL_INTERVAL_IDLE, last_api_poll := 0,
    poll_fallback_interval := 5 }

/-- C2, failing input: a key press at time 0 switches the adaptive
interval to the active cadence (2 s), yet the tick at time 3 — with
3 s at least the active cadence past the last pull — issues no pull,
because `_poll_loop` compares against the configured
`poll_fallback_interval` (5 s) and never reads `_api_poll_interval`. -/
theorem c2_adaptive_unused :
    (on_key_press_down c2State 0).api_poll_interval = POLL_INTERVAL_ACTIVE ∧
    3 - (on_key_press_down c2State 0).last_api_poll ≥
      (on_key_press_down c2State 0).api_poll_interval ∧
    (_poll_tick (on_key_press_down c2State 0) 3).2 = [] ∧
    (_poll_tick (on_key_press_down c2State 0) 3).1.api_poll_interval =
      POLL_INTERVAL_ACTIVE := by
  decide

end Tcc
